import Mathlib

/-!
Shallow embedding of the Technical Analysis and Portfolio Valuation Engine of a
crypto portfolio dashboard (source: src/lib/technicalAnalysis.ts,
src/pages/Dashboard.tsx, src/hooks/useSupabasePortfolio.ts).

Numbers are modelled as rationals.  Where the source can produce the JavaScript
special values NaN and Infinity (division by zero, 0/0), results are modelled
in the type JNum below, which adds those special values to the rationals and
implements the IEEE-754 rules the source relies on.  JavaScript negative zero
is not modelled; no modelled code path distinguishes it.
-/

/-- JavaScript number results: a rational, an infinity, or NaN. -/
inductive JNum where
  | fin (q : ℚ)
  | posInf
  | negInf
  | nan
deriving DecidableEq, Repr

namespace JNum

/-- IEEE negation. -/
def neg : JNum → JNum
  | fin q => fin (-q)
  | posInf => negInf
  | negInf => posInf
  | nan => nan

/-- IEEE addition (NaN propagates; opposite infinities give NaN). -/
def add : JNum → JNum → JNum
  | nan, _ => nan
  | _, nan => nan
  | fin a, fin b => fin (a + b)
  | posInf, negInf => nan
  | negInf, posInf => nan
  | posInf, _ => posInf
  | _, posInf => posInf
  | negInf, _ => negInf
  | _, negInf => negInf

/-- IEEE subtraction. -/
def sub (a b : JNum) : JNum := add a (neg b)

/-- IEEE multiplication (NaN propagates; zero times infinity is NaN). -/
def mul : JNum → JNum → JNum
  | nan, _ => nan
  | _, nan => nan
  | fin a, fin b => fin (a * b)
  | fin a, posInf => if a = 0 then nan else if 0 < a then posInf else negInf
  | posInf, fin a => if a = 0 then nan else if 0 < a then posInf else negInf
  | fin a, negInf => if a = 0 then nan else if 0 < a then negInf else posInf
  | negInf, fin a => if a = 0 then nan else if 0 < a then negInf else posInf
  | posInf, posInf => posInf
  | negInf, negInf => posInf
  | posInf, negInf => negInf
  | negInf, posInf => negInf

/-- IEEE division: x/0 is an infinity for x nonzero and NaN for x = 0
(positive zero denominators only; negative zero is not modelled). -/
def div : JNum → JNum → JNum
  | nan, _ => nan
  | _, nan => nan
  | fin a, fin b =>
      if b = 0 then (if a = 0 then nan else if 0 < a then posInf else negInf)
      else fin (a / b)
  | fin _, posInf => fin 0
  | fin _, negInf => fin 0
  | posInf, fin b => if 0 ≤ b then posInf else negInf
  | negInf, fin b => if 0 ≤ b then negInf else posInf
  | posInf, posInf => nan
  | posInf, negInf => nan
  | negInf, posInf => nan
  | negInf, negInf => nan

/-- The JavaScript comparison `x <= c` for a constant rational c
(false when x is NaN). -/
def leC (x : JNum) (c : ℚ) : Bool :=
  match x with
  | fin q => q ≤ c
  | posInf => false
  | negInf => true
  | nan => false

/-- The JavaScript comparison `x >= c` for a constant rational c
(false when x is NaN). -/
def geC (x : JNum) (c : ℚ) : Bool :=
  match x with
  | fin q => c ≤ q
  | posInf => true
  | negInf => false
  | nan => false

end JNum

/-- Round a rational to the nearest integer, ties toward positive infinity,
exactly as the ECMAScript toFixed specification picks the larger candidate on
ties. -/
def jsRound (q : ℚ) : ℤ := ⌊q + 1/2⌋

/-- `Number(x.toFixed(2))`: round to 2 decimal places. -/
def round2 (q : ℚ) : ℚ := (jsRound (q * 100) : ℤ) / 100

/-- `Number(x.toFixed(4))`: round to 4 decimal places. -/
def round4 (q : ℚ) : ℚ := (jsRound (q * 10000) : ℤ) / 10000

/-- toFixed on a JavaScript number: NaN and the infinities round-trip
through their string forms unchanged. -/
def jround2 : JNum → JNum
  | JNum.fin q => JNum.fin (round2 q)
  | x => x

example : round4 (88/10) = 88/10 := by norm_num [round4, jsRound]
example : round2 (1/3) = 33/100 := by norm_num [round2, jsRound]
example : JNum.div (JNum.fin 0) (JNum.fin 0) = JNum.nan := by norm_num [JNum.div]

/-! ### Indicator Calculator (src/lib/technicalAnalysis.ts, class TechnicalAnalysis)

All functions are translated statement by statement.  JavaScript number
arrays become `List ℚ`; call sites in the source always pass positive
periods (12, 14, 20, 26, 50, 9), and the translations assume nothing
beyond what the statements themselves compute. -/

/-- BUY / SELL / HOLD. -/
inductive TASignal where
  | buy
  | sell
  | hold
deriving DecidableEq, Repr

/-- STRONG / WEAK / NEUTRAL. -/
inductive TAStrength where
  | strong
  | weak
  | neutral
deriving DecidableEq, Repr

/-- interface TechnicalIndicatorResult.  The value is a JNum because the
source can produce NaN there (see calculateRSI on a flat series). -/
structure TechnicalIndicatorResult where
  value : JNum
  signal : TASignal
  strength : TAStrength
deriving DecidableEq, Repr

/-- calculateSMA: returns 0 when the series is shorter than the period,
otherwise the mean of the last `period` values rounded to 4 decimals.
`prices.slice(-period)` for a positive period is the last `period` elements,
here `drop (length - period)`. -/
def calculateSMA (prices : List ℚ) (period : ℕ) : ℚ :=
  if prices.length < period then 0
  else round4 ((prices.drop (prices.length - period)).sum / (period : ℚ))

/-- calculateEMA: seed is the first element; one smoothing step per later
element over the whole slice; result rounded to 4 decimals.  Returns 0 when
the series is shorter than the period.  (The nil inner case is unreachable:
a positive period and the length guard force the list nonempty.) -/
def calculateEMA (prices : List ℚ) (period : ℕ) : ℚ :=
  if prices.length < period then 0
  else
    match prices with
    | [] => 0
    | p :: rest =>
        let m : ℚ := 2 / ((period : ℚ) + 1)
        round4 (rest.foldl (fun ema price => price * m + ema * (1 - m)) p)

/-- The consecutive differences prices[i] - prices[i-1], i = 1 .. length-1. -/
def priceChanges (prices : List ℚ) : List ℚ :=
  (prices.zip prices.tail).map (fun pq => pq.2 - pq.1)

/-- calculateRSI.  Initial average gain/loss over the first `period` changes,
Wilder smoothing over the remaining changes, then
`rs = avgGain / avgLoss` and `rsi = 100 - 100 / (1 + rs)` with JavaScript
division semantics: a flat window gives `rs = 0/0 = NaN`, an all-gain window
gives `rs = Infinity` and hence `rsi = 100`.  The signal comparisons on a NaN
rsi are all false, so signal falls through to HOLD. -/
def calculateRSI (prices : List ℚ) (period : ℕ) : TechnicalIndicatorResult :=
  if prices.length < period + 1 then
    ⟨JNum.fin 50, TASignal.hold, TAStrength.neutral⟩
  else
    let changes := priceChanges prices
    let gains : ℚ := (changes.take period).foldl
      (fun g c => if 0 < c then g + c else g) 0
    let losses : ℚ := (changes.take period).foldl
      (fun l c => if 0 < c then l else l + |c|) 0
    let avg0 : ℚ × ℚ := (gains / (period : ℚ), losses / (period : ℚ))
    let avgs : ℚ × ℚ := (changes.drop period).foldl
      (fun av c =>
        ((av.1 * ((period : ℚ) - 1) + (if 0 < c then c else 0)) / (period : ℚ),
         (av.2 * ((period : ℚ) - 1) + (if c < 0 then |c| else 0)) / (period : ℚ)))
      avg0
    let rs := JNum.div (JNum.fin avgs.1) (JNum.fin avgs.2)
    let rsi := JNum.sub (JNum.fin 100)
      (JNum.div (JNum.fin 100) (JNum.add (JNum.fin 1) rs))
    let signal : TASignal :=
      if rsi.leC 30 then TASignal.buy
      else if rsi.geC 70 then TASignal.sell
      else TASignal.hold
    let strength : TAStrength :=
      if rsi.leC 30 then (if rsi.leC 20 then TAStrength.strong else TAStrength.weak)
      else if rsi.geC 70 then (if rsi.geC 80 then TAStrength.strong else TAStrength.weak)
      else TAStrength.neutral
    ⟨jround2 rsi, signal, strength⟩

/-- Return record of calculateMACD. -/
structure MACDResult where
  macd : ℚ
  signal : ℚ
  histogram : ℚ
deriving DecidableEq, Repr

/-- calculateMACD: macd = EMA12 - EMA26 of the whole series; the signal line
is the 9-period EMA of the macd values recomputed on every prefix
`prices.slice(0, i+1)` for i = 26 .. length-1; histogram = macd - signal.
All three results rounded to 4 decimals. -/
def calculateMACD (prices : List ℚ) : MACDResult :=
  let ema12 := calculateEMA prices 12
  let ema26 := calculateEMA prices 26
  let macd := ema12 - ema26
  let macdHistory := ((List.range prices.length).drop 26).map
    (fun i => calculateEMA (prices.take (i + 1)) 12 - calculateEMA (prices.take (i + 1)) 26)
  let signal := calculateEMA macdHistory 9
  ⟨round4 macd, round4 signal, round4 (macd - signal)⟩

/-- Return record of calculateBollingerBands. -/
structure BollingerBands where
  upper : ℚ
  middle : ℚ
  lower : ℚ
deriving DecidableEq, Repr

/-- calculateBollingerBands.  `Math.sqrt` is transcendental, so it is taken
as an explicit function parameter `sqrtFn`; every theorem that touches the
standard deviation carries the facts it needs about `sqrtFn` as hypotheses. -/
def calculateBollingerBands (sqrtFn : ℚ → ℚ) (prices : List ℚ)
    (period : ℕ) (multiplier : ℚ) : BollingerBands :=
  let sma := calculateSMA prices period
  let slice := prices.drop (prices.length - period)
  let variance := (slice.foldl (fun s price => s + (price - sma) ^ 2) 0) / (period : ℚ)
  let stdDev := sqrtFn variance
  ⟨round4 (sma + stdDev * multiplier), sma, round4 (sma - stdDev * multiplier)⟩

/-- The seven levels of interface FibonacciLevels, keys 0%, 23.6%, 38.2%,
50%, 61.8%, 78.6%, 100%. -/
structure FibLevels where
  l0 : ℚ
  l236 : ℚ
  l382 : ℚ
  l50 : ℚ
  l618 : ℚ
  l786 : ℚ
  l100 : ℚ
deriving DecidableEq, Repr

/-- interface FibonacciLevels. -/
structure FibonacciLevels where
  high : ℚ
  low : ℚ
  levels : FibLevels
deriving DecidableEq, Repr

/-- calculateFibonacciRetracement: each level is
`high - range * ratio` rounded to 4 decimals (the endpoints are
`Number(high.toFixed(4))` and `Number(low.toFixed(4))`). -/
def calculateFibonacciRetracement (high low : ℚ) : FibonacciLevels :=
  let range := high - low
  ⟨high, low,
    ⟨round4 high,
     round4 (high - range * 0.236),
     round4 (high - range * 0.382),
     round4 (high - range * 0.5),
     round4 (high - range * 0.618),
     round4 (high - range * 0.786),
     round4 low⟩⟩

example : calculateSMA [] 20 = 0 := by norm_num [calculateSMA]
example : calculateSMA [1, 2, 3] 2 = 5/2 := by
  norm_num [calculateSMA, round4, jsRound]
example : calculateEMA [1, 2] 2 = 16667/10000 := by
  norm_num [calculateEMA, round4, jsRound]

/-! ### Support and resistance (calculateSupportResistance) -/

/-- One entry of the `grouped` array inside groupLevels: a level and its
touch count. -/
structure SRGroup where
  level : ℚ
  count : ℕ
deriving DecidableEq, Repr

/-- The matching test `Math.abs(g.level - level) / g.level < 0.01` of
`grouped.find`.  When `g.level = 0` the JavaScript division gives NaN or
Infinity and the comparison is false, hence the explicit guard. -/
def srMatches (g : SRGroup) (level : ℚ) : Prop :=
  g.level ≠ 0 ∧ |g.level - level| / g.level < 0.01

instance (g : SRGroup) (level : ℚ) : Decidable (srMatches g level) := by
  unfold srMatches
  infer_instance

/-- One step of the `levels.forEach` loop: the first matching group has its
count bumped and its level replaced by the average of the old group level and
the new member; otherwise a fresh group is appended. -/
def insertLevel : List SRGroup → ℚ → List SRGroup
  | [], level => [⟨level, 1⟩]
  | g :: gs, level =>
      if srMatches g level then ⟨(g.level + level) / 2, g.count + 1⟩ :: gs
      else g :: insertLevel gs level

/-- groupLevels before the final `.map(g => g.level)`: sequential grouping,
then `filter(count >= minTouches)`, then the stable descending sort on count
(`sort((a, b) => b.count - a.count)`; Array.prototype.sort is stable, and a
stable sort by a total preorder is unique, here insertion sort), then
`slice(0, 3)`. -/
def groupLevelGroups (minTouches : ℕ) (levels : List ℚ) : List SRGroup :=
  ((List.insertionSort (fun a b : SRGroup => b.count ≤ a.count)
    ((levels.foldl insertLevel []).filter (fun g => minTouches ≤ g.count))).take 3)

/-- groupLevels. -/
def groupLevels (minTouches : ℕ) (levels : List ℚ) : List ℚ :=
  (groupLevelGroups minTouches levels).map SRGroup.level

/-- The scan for local minima: indices i = 2 .. length-3 whose price is at
most each of the two neighbours on both sides, pushed as
`Number(price.toFixed(4))`. -/
def localMinima (prices : List ℚ) : List ℚ :=
  ((List.range (prices.length - 4)).map (· + 2)).filterMap (fun i =>
    let price := prices.getD i 0
    if price ≤ prices.getD (i - 1) 0 ∧ price ≤ prices.getD (i - 2) 0 ∧
       price ≤ prices.getD (i + 1) 0 ∧ price ≤ prices.getD (i + 2) 0 then
      some (round4 price)
    else none)

/-- The scan for local maxima, symmetric to localMinima. -/
def localMaxima (prices : List ℚ) : List ℚ :=
  ((List.range (prices.length - 4)).map (· + 2)).filterMap (fun i =>
    let price := prices.getD i 0
    if prices.getD (i - 1) 0 ≤ price ∧ prices.getD (i - 2) 0 ≤ price ∧
       prices.getD (i + 1) 0 ≤ price ∧ prices.getD (i + 2) 0 ≤ price then
      some (round4 price)
    else none)

/-- Return record of calculateSupportResistance. -/
structure SupportResistance where
  support : List ℚ
  resistance : List ℚ
deriving DecidableEq, Repr

/-- calculateSupportResistance. -/
def calculateSupportResistance (prices : List ℚ) (minTouches : ℕ) :
    SupportResistance :=
  ⟨groupLevels minTouches (localMinima prices),
   groupLevels minTouches (localMaxima prices)⟩

/-- Modelled from the words of the spec, for comparison with the source:
grouping keeps the list of members; a level joins the first group whose
arithmetic mean it is within 1% of, and the level reported for a group is the
arithmetic mean of all its members (the source instead keeps a running
pairwise average). -/
structure SRGroupSpec where
  members : List ℚ
deriving DecidableEq, Repr

/-- Arithmetic mean of the members of a spec-side group. -/
def SRGroupSpec.mean (g : SRGroupSpec) : ℚ := g.members.sum / (g.members.length : ℚ)

/-- Spec-side membership test: within 1% relative distance of the group mean. -/
def srMatchesSpec (g : SRGroupSpec) (level : ℚ) : Prop :=
  g.mean ≠ 0 ∧ |g.mean - level| / g.mean < 0.01

instance (g : SRGroupSpec) (level : ℚ) : Decidable (srMatchesSpec g level) := by
  unfold srMatchesSpec
  infer_instance

/-- Spec-side insertion into the first matching group. -/
def insertLevelSpec : List SRGroupSpec → ℚ → List SRGroupSpec
  | [], level => [⟨[level]⟩]
  | g :: gs, level =>
      if srMatchesSpec g level then ⟨g.members ++ [level]⟩ :: gs
      else g :: insertLevelSpec gs level

/-- Spec-side groupLevels: same filter, sort and truncation, but each group
reports the arithmetic mean of its members. -/
def groupLevelsSpec (minTouches : ℕ) (levels : List ℚ) : List ℚ :=
  ((List.insertionSort (fun a b : SRGroupSpec => b.members.length ≤ a.members.length)
    ((levels.foldl insertLevelSpec []).filter
      (fun g => minTouches ≤ g.members.length))).take 3).map SRGroupSpec.mean

/-- Spec-side calculateSupportResistance, following the words of the spec. -/
def calculateSupportResistanceSpec (prices : List ℚ) (minTouches : ℕ) :
    SupportResistance :=
  ⟨groupLevelsSpec minTouches (localMinima prices),
   groupLevelsSpec minTouches (localMaxima prices)⟩

/-! ### Pattern recognition (detectPatterns) -/

/-- BULLISH / BEARISH / NEUTRAL, used both for pattern directions and for the
votes and overall signal of the aggregator. -/
inductive Sentiment where
  | bullish
  | bearish
  | neutral
deriving DecidableEq, Repr

/-- interface PatternResult. -/
structure PatternResult where
  pattern : String
  probability : ℕ
  direction : Sentiment
  target : ℚ
  stopLoss : ℚ
deriving DecidableEq, Repr

/-- `Math.max(...list)` for a nonempty list; the source only spreads
nonempty slices into Math.max (the empty case, which JavaScript maps to
-Infinity, is unreachable in the guarded branches). -/
def listMax : List ℚ → ℚ
  | [] => 0
  | p :: rest => rest.foldl max p

/-- `prices[prices.length - 1]`; the source reads it unconditionally, and it
is undefined on an empty array — every use below is behind a length guard. -/
def lastPrice (prices : List ℚ) : ℚ := (prices.getLast?).getD 0

/-- The Head and Shoulders branch of detectPatterns: on the last 20 samples,
the first index of the maximum must fall in 5 .. 15; shoulders are the maxima
strictly left of head-2 and strictly right of head+2; the match requires both
below the head and within 5% of the left shoulder (JavaScript division by a
zero left shoulder yields NaN or Infinity and never matches, hence the
guard). -/
def headAndShoulders (prices : List ℚ) : List PatternResult :=
  if 20 ≤ prices.length then
    let recent := prices.drop (prices.length - 20)
    let maxIndex := recent.indexOf (listMax recent)
    if 5 ≤ maxIndex ∧ maxIndex ≤ 15 then
      let leftShoulder := listMax (recent.take (maxIndex - 2))
      let rightShoulder := listMax (recent.drop (maxIndex + 2))
      let head := recent.getD maxIndex 0
      if leftShoulder < head ∧ rightShoulder < head ∧ leftShoulder ≠ 0 ∧
         |leftShoulder - rightShoulder| / leftShoulder < 0.05 then
        [⟨"Head and Shoulders", 75, Sentiment.bearish,
          round4 (lastPrice prices * 0.95), round4 (head * 1.02)⟩]
      else []
    else []
  else []

/-- The 3-point strict local maxima prices[i-1] < prices[i] > prices[i+1]
collected by the double top/bottom branch, for i = 2 .. length-3 (the loop
bounds leave i-2 and i+2 unused here). -/
def recentHighs (prices : List ℚ) : List ℚ :=
  ((List.range (prices.length - 4)).map (· + 2)).filterMap (fun i =>
    if prices.getD (i - 1) 0 < prices.getD i 0 ∧
       prices.getD (i + 1) 0 < prices.getD i 0 then
      some (prices.getD i 0)
    else none)

/-- The 3-point strict local minima, symmetric to recentHighs. -/
def recentLows (prices : List ℚ) : List ℚ :=
  ((List.range (prices.length - 4)).map (· + 2)).filterMap (fun i =>
    if prices.getD i 0 < prices.getD (i - 1) 0 ∧
       prices.getD i 0 < prices.getD (i + 1) 0 then
      some (prices.getD i 0)
    else none)

/-- The double top branch: the last two detected maxima within 2% relative
difference of the first of the pair (guarded against a zero first element as
in headAndShoulders). -/
def doubleTop (prices : List ℚ) : List PatternResult :=
  if 30 ≤ prices.length then
    let highs := recentHighs prices
    if 2 ≤ highs.length then
      let lastTwo := highs.drop (highs.length - 2)
      let p0 := lastTwo.getD 0 0
      let p1 := lastTwo.getD 1 0
      if p0 ≠ 0 ∧ |p0 - p1| / p0 < 0.02 then
        [⟨"Double Top", 70, Sentiment.bearish,
          round4 (lastPrice prices * 0.94), round4 (max p0 p1 * 1.02)⟩]
      else []
    else []
  else []

/-- The double bottom branch, symmetric to doubleTop. -/
def doubleBottom (prices : List ℚ) : List PatternResult :=
  if 30 ≤ prices.length then
    let lows := recentLows prices
    if 2 ≤ lows.length then
      let lastTwo := lows.drop (lows.length - 2)
      let p0 := lastTwo.getD 0 0
      let p1 := lastTwo.getD 1 0
      if p0 ≠ 0 ∧ |p0 - p1| / p0 < 0.02 then
        [⟨"Double Bottom", 70, Sentiment.bullish,
          round4 (lastPrice prices * 1.06), round4 (min p0 p1 * 0.98)⟩]
      else []
    else []
  else []

/-- detectPatterns: the three independent checks pushed in source order. -/
def detectPatterns (prices : List ℚ) : List PatternResult :=
  headAndShoulders prices ++ doubleTop prices ++ doubleBottom prices

/-! ### Signal Aggregator (performComprehensiveAnalysis, lines 294-321)

The source counts bullish and bearish votes from four comparisons and maps
the counts to an overall signal and a confidence.  The counting rule is
factored out over an explicit vote list so that its algebraic properties can
be stated; the four analysis votes below instantiate it exactly as the
source comparisons do. -/

/-- Count of BULLISH votes. -/
def countBullish (votes : List Sentiment) : ℕ :=
  votes.count Sentiment.bullish

/-- Count of BEARISH votes. -/
def countBearish (votes : List Sentiment) : ℕ :=
  votes.count Sentiment.bearish

/-- `bullishSignals > bearishSignals ? BULLISH : bearishSignals >
bullishSignals ? BEARISH : NEUTRAL`. -/
def overallFromCounts (b r : ℕ) : Sentiment :=
  if r < b then Sentiment.bullish
  else if b < r then Sentiment.bearish
  else Sentiment.neutral

/-- `Math.abs(bullishSignals - bearishSignals) / (bullishSignals +
bearishSignals) * 100` with JavaScript division semantics: both counts zero
gives 0/0 = NaN. -/
def confidenceFromCounts (b r : ℕ) : JNum :=
  JNum.mul (JNum.div (JNum.fin |(b : ℚ) - (r : ℚ)|) (JNum.fin ((b : ℚ) + (r : ℚ))))
    (JNum.fin 100)

/-- The aggregator over an explicit vote list: neutral votes count neither
way. -/
def aggregateVotes (votes : List Sentiment) : Sentiment × JNum :=
  (overallFromCounts (countBullish votes) (countBearish votes),
   confidenceFromCounts (countBullish votes) (countBearish votes))

/-- Swap BULLISH and BEARISH in one vote. -/
def swapVote : Sentiment → Sentiment
  | Sentiment.bullish => Sentiment.bearish
  | Sentiment.bearish => Sentiment.bullish
  | Sentiment.neutral => Sentiment.neutral

/-- A vote from a strict comparison: `if (x > y) bullish++; if (x < y)
bearish++` contributes one bullish vote, one bearish vote, or nothing. -/
def cmpVote (x y : ℚ) : Sentiment :=
  if y < x then Sentiment.bullish
  else if x < y then Sentiment.bearish
  else Sentiment.neutral

/-- The RSI vote: a BUY signal adds one bullish vote, a SELL signal one
bearish vote, HOLD adds nothing. -/
def rsiVote (prices : List ℚ) : Sentiment :=
  match (calculateRSI prices 14).signal with
  | TASignal.buy => Sentiment.bullish
  | TASignal.sell => Sentiment.bearish
  | TASignal.hold => Sentiment.neutral

/-- The four votes of performComprehensiveAnalysis, in source order:
RSI signal, price vs SMA20, price vs SMA50, MACD vs its signal line. -/
def analysisVotes (prices : List ℚ) : List Sentiment :=
  [rsiVote prices,
   cmpVote (lastPrice prices) (calculateSMA prices 20),
   cmpVote (lastPrice prices) (calculateSMA prices 50),
   cmpVote (calculateMACD prices).macd (calculateMACD prices).signal]

/-- The overall signal of performComprehensiveAnalysis. -/
def analysisOverallSignal (prices : List ℚ) : Sentiment :=
  (aggregateVotes (analysisVotes prices)).1

/-- The confidence of performComprehensiveAnalysis. -/
def analysisConfidence (prices : List ℚ) : JNum :=
  (aggregateVotes (analysisVotes prices)).2

/-! ### Portfolio Valuation Reconciler

Two reconciliation sites exist in the source: the Dashboard page
(src/pages/Dashboard.tsx, portfolioChange / portfolioChangePercent over the
stored assets) and the Supabase hook
(src/hooks/useSupabasePortfolio.ts, updateAssetsWithLivePrices). -/

/-- interface CryptoAsset (Dashboard.tsx). -/
structure CryptoAsset where
  id : String
  symbol : String
  name : String
  quantity : ℚ
  currentPrice : ℚ
  priceChange24h : ℚ
  totalValue : ℚ
deriving DecidableEq, Repr

/-- Dashboard: `assets.reduce((sum, asset) => sum + asset.totalValue, 0)`. -/
def totalPortfolioValue (assets : List CryptoAsset) : ℚ :=
  assets.foldl (fun sum asset => sum + asset.totalValue) 0

/-- Dashboard: `portfolioChange = assets.reduce((sum, asset) => sum +
(asset.priceChange24h / 100) * asset.totalValue, 0)`. -/
def portfolioChange (assets : List CryptoAsset) : ℚ :=
  assets.foldl (fun sum asset => sum + asset.priceChange24h / 100 * asset.totalValue) 0

/-- Dashboard lines 51-53: `totalPortfolioValue > 0 ? (portfolioChange /
(totalPortfolioValue - portfolioChange)) * 100 : 0`, with JavaScript division
semantics when the denominator is zero. -/
def portfolioChangePercent (assets : List CryptoAsset) : JNum :=
  if 0 < totalPortfolioValue assets then
    JNum.mul
      (JNum.div (JNum.fin (portfolioChange assets))
        (JNum.fin (totalPortfolioValue assets - portfolioChange assets)))
      (JNum.fin 100)
  else JNum.fin 0

/-- A database row of portfolio_assets as consumed by
updateAssetsWithLivePrices; `none` models a null column (or a parseFloat
that yields NaN). -/
structure DbAsset where
  symbol : String
  quantity : ℚ
  currentPrice : Option ℚ
  purchasePrice : Option ℚ
deriving DecidableEq, Repr

/-- One entry of the live price map: `{ price, change_24h }`. -/
structure LivePrice where
  price : ℚ
  change24h : ℚ
deriving DecidableEq, Repr

/-- The JavaScript `a || b` fallback on an optional number: absent and zero
(both falsy) fall through to the fallback. -/
def jsOr (a : Option ℚ) (b : ℚ) : ℚ :=
  match a with
  | some x => if x = 0 then b else x
  | none => b

/-- `liveData?.price || parseFloat(asset.current_price) ||
parseFloat(asset.purchase_price) || 0`. -/
def resolvePrice (live : Option LivePrice) (asset : DbAsset) : ℚ :=
  jsOr (live.map LivePrice.price) (jsOr asset.currentPrice (jsOr asset.purchasePrice 0))

/-- `liveData?.change_24h || 0`. -/
def resolveChange24h (live : Option LivePrice) : ℚ :=
  jsOr (live.map LivePrice.change24h) 0

/-- The totalValue accumulator of updateAssetsWithLivePrices:
`totalValue += asset.quantity * currentPrice` per asset. -/
def supabaseTotalValue (live : String → Option LivePrice) (assets : List DbAsset) : ℚ :=
  assets.foldl (fun acc asset =>
    acc + asset.quantity * resolvePrice (live asset.symbol.toLower) asset) 0

/-- The totalChange accumulator of updateAssetsWithLivePrices: only assets
with a truthy purchase_price contribute, and the contribution is
`(currentPrice - purchase_price) * quantity`. -/
def supabaseTotalChange (live : String → Option LivePrice) (assets : List DbAsset) : ℚ :=
  assets.foldl (fun acc asset =>
    match asset.purchasePrice with
    | some p =>
        if p = 0 then acc
        else acc + (resolvePrice (live asset.symbol.toLower) asset - p) * asset.quantity
    | none => acc) 0

/-- Hook line 181: `totalValue > 0 ? (totalChange / (totalValue -
totalChange)) * 100 : 0`. -/
def supabaseChangePercent (live : String → Option LivePrice) (assets : List DbAsset) : JNum :=
  if 0 < supabaseTotalValue live assets then
    JNum.mul
      (JNum.div (JNum.fin (supabaseTotalChange live assets))
        (JNum.fin (supabaseTotalValue live assets - supabaseTotalChange live assets)))
      (JNum.fin 100)
  else JNum.fin 0

/-- Modelled from the words of the spec, for comparison with the source:
`totalChange = Σ (priceChange24h / 100 * value)` over the resolved per-asset
values of the Supabase reconciler. -/
def specTotalChange (live : String → Option LivePrice) (assets : List DbAsset) : ℚ :=
  (assets.map (fun asset =>
    resolveChange24h (live asset.symbol.toLower) / 100 *
      (asset.quantity * resolvePrice (live asset.symbol.toLower) asset))).sum

/-! ### Synthetic historical series (generateHistoricalData,
useSupabasePortfolio.ts lines 367-413) -/

/-- One chart point.  The source renders the calendar date of `daysBack`
days before today into a label string; the date arithmetic is irrelevant to
the modelled computation, so the point keeps the raw `daysBack` offset.  The
change field divides by the previous value and is therefore a JNum. -/
structure HistoricalDataPoint where
  daysBack : ℕ
  value : ℚ
  change : JNum
deriving DecidableEq, Repr

/-- One iteration of the day loop.  `sinAt i` models
`Math.sin((i / 30) * Math.PI * 2)` (an opaque transcendental, taken as a
function parameter) and `randAt i j` models the `Math.random()` draw for day
`i` and asset index `j`.  The clamp
`Math.max(dailyPortfolioValue, currentTotalValue * 0.3)` is applied before
the point is pushed; the previous value for the change uses the JavaScript
`|| dailyPortfolioValue` fallback. -/
def histStep (sinAt : ℕ → ℚ) (randAt : ℕ → ℕ → ℚ) (assets : List CryptoAsset)
    (currentTotalValue : ℚ) (data : List HistoricalDataPoint) (i : ℕ) :
    List HistoricalDataPoint :=
  let dailyRaw := (assets.enum.foldl (fun acc ja =>
    let volatility := sinAt i * 0.1
    let randomFactor := (randAt i ja.1 - 0.5) * 0.05
    let priceMultiplier := 1 + volatility + randomFactor
    acc + ja.2.quantity * (ja.2.currentPrice * priceMultiplier)) 0)
  let daily := max dailyRaw (currentTotalValue * 0.3)
  let previous := if i = 29 then daily
    else jsOr ((data.getLast?).map HistoricalDataPoint.value) daily
  let change := if i = 29 then JNum.fin 0
    else JNum.mul (JNum.div (JNum.fin (daily - previous)) (JNum.fin previous))
      (JNum.fin 100)
  data ++ [⟨i, daily, change⟩]

/-- generateHistoricalData: an empty asset list yields an empty series;
otherwise 30 points for i = 29 down to 0. -/
def generateHistoricalData (sinAt : ℕ → ℚ) (randAt : ℕ → ℕ → ℚ)
    (assets : List CryptoAsset) : List HistoricalDataPoint :=
  if assets = [] then []
  else ((List.range 30).reverse).foldl
    (histStep sinAt randAt assets (totalPortfolioValue assets)) []

/-! ### Helper lemmas -/

/-- jsRound agrees with the Mathlib rounding function. -/
theorem jsRound_eq_round (q : ℚ) : jsRound q = round q := (round_eq q).symm

/-- Rounding to 4 decimals moves a rational by at most 1/20000. -/
theorem abs_round4_sub (q : ℚ) : |round4 q - q| ≤ 1 / 20000 := by
  have h := abs_sub_round (q * 10000)
  rw [abs_sub_comm, abs_le] at h
  rw [round4, jsRound_eq_round, abs_le]
  constructor <;> linarith [h.1, h.2]

/-- A strict lower bound survives rounding to 4 decimals. -/
theorem lt_round4 (q c : ℚ) (h : c + 1 / 20000 < q) : c < round4 q := by
  have hb := abs_round4_sub q
  rw [abs_le] at hb
  linarith [hb.1]

/-- A strict upper bound survives rounding to 4 decimals. -/
theorem round4_lt (q c : ℚ) (h : q + 1 / 20000 < c) : round4 q < c := by
  have hb := abs_round4_sub q
  rw [abs_le] at hb
  linarith [hb.2]

/-- Folding `+ f a` over a list sums the mapped list. -/
theorem foldl_add_eq_sum {α : Type} (f : α → ℚ) (l : List α) (init : ℚ) :
    l.foldl (fun s a => s + f a) init = init + (l.map f).sum := by
  induction l generalizing init with
  | nil => simp
  | cons a t ih => simp [ih, add_assoc]

/-- Rounding fixes zero. -/
theorem round4_zero : round4 0 = 0 := by norm_num [round4, jsRound]

/-- Swapping the votes swaps the two counts. -/
theorem countBullish_map_swap (votes : List Sentiment) :
    countBullish (votes.map swapVote) = countBearish votes := by
  induction votes with
  | nil => rfl
  | cons v t ih =>
      cases v <;>
        simp [countBullish, countBearish, swapVote, List.count_cons] at * <;>
        omega

/-- Swapping the votes swaps the two counts, other direction. -/
theorem countBearish_map_swap (votes : List Sentiment) :
    countBearish (votes.map swapVote) = countBullish votes := by
  induction votes with
  | nil => rfl
  | cons v t ih =>
      cases v <;>
        simp [countBullish, countBearish, swapVote, List.count_cons] at * <;>
        omega

/-! ### Claims -/

/-- A series shorter than the period makes calculateEMA return 0. -/
theorem calculateEMA_short (l : List ℚ) (period : ℕ) (h : l.length < period) :
    calculateEMA l period = 0 := by
  unfold calculateEMA
  rw [if_pos h]

/-- A series shorter than the period makes calculateSMA return 0. -/
theorem calculateSMA_short (l : List ℚ) (period : ℕ) (h : l.length < period) :
    calculateSMA l period = 0 := by
  unfold calculateSMA
  rw [if_pos h]

/-- Claim C10: for every price series with fewer than 35 elements,
calculateMACD returns signal = 0 (the MACD history built from prefixes past
index 26 has fewer than 9 entries, so its 9-period EMA falls back to 0), and
hence histogram equals macd exactly for such inputs. -/
theorem macd_signal_zero_short_series (prices : List ℚ)
    (h : prices.length < 35) :
    (calculateMACD prices).signal = 0 ∧
    (calculateMACD prices).histogram = (calculateMACD prices).macd := by
  have hlen : (((List.range prices.length).drop 26).map
      (fun i => calculateEMA (prices.take (i + 1)) 12 -
        calculateEMA (prices.take (i + 1)) 26)).length < 9 := by
    simp only [List.length_map, List.length_drop, List.length_range]
    omega
  have hsig := calculateEMA_short _ 9 hlen
  refine ⟨?_, ?_⟩ <;>
    simp only [calculateMACD, hsig, sub_zero, round4_zero]

/-- Witness for C10 at the concrete 3-element series [1, 2, 3]. -/
theorem macd_signal_zero_short_series_witness :
    ([1, 2, 3] : List ℚ).length < 35 ∧
    ((calculateMACD [1, 2, 3]).signal = 0 ∧
     (calculateMACD [1, 2, 3]).histogram = (calculateMACD [1, 2, 3]).macd) :=
  ⟨by decide, macd_signal_zero_short_series [1, 2, 3] (by decide)⟩

/-- Claim C6: the Signal Aggregator is symmetric — swapping every BULLISH
vote with BEARISH flips the overall signal (NEUTRAL stays NEUTRAL, ties stay
NEUTRAL) and leaves the confidence unchanged. -/
theorem aggregator_swap_symmetric (votes : List Sentiment) :
    (aggregateVotes (votes.map swapVote)).1 = swapVote (aggregateVotes votes).1 ∧
    (aggregateVotes (votes.map swapVote)).2 = (aggregateVotes votes).2 := by
  have hb := countBullish_map_swap votes
  have hr := countBearish_map_swap votes
  constructor
  · simp only [aggregateVotes, hb, hr, overallFromCounts]
    rcases Nat.lt_trichotomy (countBullish votes) (countBearish votes) with h | h | h
    · rw [if_pos h,
        if_neg (show ¬ countBearish votes < countBullish votes by omega), if_pos h]
      rfl
    · rw [if_neg (show ¬ countBullish votes < countBearish votes by omega),
        if_neg (show ¬ countBearish votes < countBullish votes by omega),
        if_neg (show ¬ countBearish votes < countBullish votes by omega),
        if_neg (show ¬ countBullish votes < countBearish votes by omega)]
      rfl
    · rw [if_neg (show ¬ countBullish votes < countBearish votes by omega),
        if_pos h, if_pos h]
      rfl
  · simp only [aggregateVotes, hb, hr, confidenceFromCounts, abs_sub_comm, add_comm]

/-- Folding histStep preserves the 30% floor on every stored point: each
iteration pushes one point whose value went through the
`Math.max(dailyPortfolioValue, currentTotalValue * 0.3)` clamp. -/
theorem histStep_foldl_floor (sinAt : ℕ → ℚ) (randAt : ℕ → ℕ → ℚ)
    (assets : List CryptoAsset) (total : ℚ) (days : List ℕ)
    (acc : List HistoricalDataPoint)
    (hacc : ∀ p ∈ acc, total * 0.3 ≤ p.value) :
    ∀ p ∈ days.foldl (histStep sinAt randAt assets total) acc,
      total * 0.3 ≤ p.value := by
  induction days generalizing acc with
  | nil => exact hacc
  | cons d t ih =>
      refine ih (histStep sinAt randAt assets total acc d) ?_
      intro p hp
      simp only [histStep, List.mem_append, List.mem_singleton] at hp
      rcases hp with h | h
      · exact hacc p h
      · rw [h]
        exact le_max_right _ _

/-- Folding histStep adds exactly one point per day. -/
theorem histStep_foldl_length (sinAt : ℕ → ℚ) (randAt : ℕ → ℕ → ℚ)
    (assets : List CryptoAsset) (total : ℚ) (days : List ℕ)
    (acc : List HistoricalDataPoint) :
    (days.foldl (histStep sinAt randAt assets total) acc).length
      = acc.length + days.length := by
  induction days generalizing acc with
  | nil => simp
  | cons d t ih =>
      rw [List.foldl_cons, ih]
      simp only [histStep, List.length_append, List.length_cons,
        List.length_nil]
      omega

/-- Claim C9: for every nonempty asset set and every draw of the sine and
random noise, every point of the synthetic 30-day series has value at least
30% of the current total portfolio value. -/
theorem historicalData_floor (sinAt : ℕ → ℚ) (randAt : ℕ → ℕ → ℚ)
    (assets : List CryptoAsset) (h : assets ≠ []) :
    ∀ p ∈ generateHistoricalData sinAt randAt assets,
      totalPortfolioValue assets * 0.3 ≤ p.value := by
  unfold generateHistoricalData
  rw [if_neg h]
  exact histStep_foldl_floor sinAt randAt assets (totalPortfolioValue assets)
    ((List.range 30).reverse) [] (by simp)

/-- The single-asset portfolio of spec example scenario 3: 2 BTC at 30000
with a +5% daily change. -/
def cPortfolio : List CryptoAsset :=
  [⟨"1", "BTC", "Bitcoin", 2, 30000, 5, 60000⟩]

/-- The generated series of the witness portfolio is nonempty (it has 30
points). -/
theorem cPortfolio_hist_ne_nil :
    generateHistoricalData (fun _ => 0) (fun _ _ => 1/2) cPortfolio ≠ [] := by
  have hlen := histStep_foldl_length (fun _ => 0) (fun _ _ => 1/2) cPortfolio
    (totalPortfolioValue cPortfolio) ((List.range 30).reverse) []
  intro hnil
  unfold generateHistoricalData at hnil
  rw [if_neg (by simp [cPortfolio])] at hnil
  rw [hnil] at hlen
  simp at hlen

/-- Witness for C9 at the concrete single-asset portfolio with sine fixed to
0 and every random draw fixed to 1/2. -/
theorem historicalData_floor_witness :
    cPortfolio ≠ [] ∧
    totalPortfolioValue cPortfolio * 0.3 ≤
      ((generateHistoricalData (fun _ => 0) (fun _ _ => 1/2) cPortfolio).head
        cPortfolio_hist_ne_nil).value :=
  ⟨by simp [cPortfolio],
   historicalData_floor (fun _ => 0) (fun _ _ => 1/2) cPortfolio
     (by simp [cPortfolio]) _ (List.head_mem cPortfolio_hist_ne_nil)⟩

/-- Claim C2 (failing evaluation): on the flat 15-element series the source
computes rs = 0/0 = NaN and returns a NaN RSI value instead of clamping to
100; on the strictly increasing series [1..20] the claimed clamp to 100 does
hold.  The flat series refutes `RSI ∈ [0,100]` for every series of length
≥ period+1. -/
theorem rsi_nan_on_flat_series :
    (calculateRSI [7, 7, 7, 7, 7, 7, 7, 7, 7, 7, 7, 7, 7, 7, 7] 14).value
      = JNum.nan ∧
    (calculateRSI [1, 2, 3, 4, 5, 6, 7, 8, 9, 10, 11, 12, 13, 14, 15, 16, 17,
      18, 19, 20] 14).value = JNum.fin 100 := by
  constructor <;>
    norm_num [calculateRSI, priceChanges, jround2, round2, jsRound,
      JNum.div, JNum.add, JNum.sub, JNum.neg, JNum.mul]

/-- Claim C3 (failing evaluation): on the single-element series [0] all four
votes are neutral (b = r = 0), and the confidence of
performComprehensiveAnalysis evaluates to 0/0 * 100 = NaN — the source has
no guard for b + r = 0, so the division by zero does surface. -/
theorem analysisConfidence_nan_on_no_votes :
    analysisVotes [0] = [Sentiment.neutral, Sentiment.neutral,
      Sentiment.neutral, Sentiment.neutral] ∧
    analysisConfidence [0] = JNum.nan := by
  have hrange : (List.range 1).drop 26 = ([] : List ℕ) := by decide
  have hvotes : analysisVotes [0] = [Sentiment.neutral, Sentiment.neutral,
      Sentiment.neutral, Sentiment.neutral] := by
    norm_num [analysisVotes, rsiVote, cmpVote, calculateRSI, calculateSMA,
      calculateMACD, calculateEMA, lastPrice, round4, jsRound, hrange]
  have hcb : countBullish [Sentiment.neutral, Sentiment.neutral,
      Sentiment.neutral, Sentiment.neutral] = 0 := by decide
  have hcr : countBearish [Sentiment.neutral, Sentiment.neutral,
      Sentiment.neutral, Sentiment.neutral] = 0 := by decide
  refine ⟨hvotes, ?_⟩
  rw [analysisConfidence, aggregateVotes, hvotes, hcb, hcr]
  norm_num [confidenceFromCounts, JNum.div, JNum.mul]

/-- Claim C1 (counterexample): the empty series does not fail with any
InvalidSeries error — calculateSMA returns the silent zero and calculateRSI
the neutral default, exactly what the claim rules out.  No error channel
exists anywhere in the source indicator functions. -/
theorem empty_series_silent_defaults :
    calculateSMA [] 20 = 0 ∧
    calculateRSI [] 14 = ⟨JNum.fin 50, TASignal.hold, TAStrength.neutral⟩ := by
  refine ⟨calculateSMA_short [] 20 (by decide), ?_⟩
  unfold calculateRSI
  rw [if_pos (by decide)]

/-- Claim C1 (amended): every indicator function maps the empty price series
to its neutral or zero default without any error: SMA and EMA return 0, RSI
returns value 50 / HOLD / NEUTRAL, MACD returns all zeros, support and
resistance are empty, no pattern fires, and the Bollinger bands are all zero
whenever the square root function sends 0 to 0. -/
theorem empty_series_neutral_defaults (sqrtFn : ℚ → ℚ) (h : sqrtFn 0 = 0) :
    calculateSMA [] 20 = 0 ∧ calculateSMA [] 50 = 0 ∧
    calculateEMA [] 12 = 0 ∧ calculateEMA [] 26 = 0 ∧
    calculateRSI [] 14 = ⟨JNum.fin 50, TASignal.hold, TAStrength.neutral⟩ ∧
    calculateMACD [] = ⟨0, 0, 0⟩ ∧
    calculateSupportResistance [] 2 = ⟨[], []⟩ ∧
    detectPatterns [] = [] ∧
    calculateBollingerBands sqrtFn [] 20 2 = ⟨0, 0, 0⟩ := by
  refine ⟨calculateSMA_short [] 20 (by decide),
    calculateSMA_short [] 50 (by decide),
    calculateEMA_short [] 12 (by decide),
    calculateEMA_short [] 26 (by decide),
    ?_, ?_, ?_, ?_, ?_⟩
  · unfold calculateRSI
    rw [if_pos (by decide)]
  · norm_num [calculateMACD, calculateEMA, round4, jsRound]
  · norm_num [calculateSupportResistance, groupLevels, groupLevelGroups,
      localMinima, localMaxima, List.insertionSort]
  · norm_num [detectPatterns, headAndShoulders, doubleTop, doubleBottom]
  · norm_num [calculateBollingerBands, calculateSMA, h, round4, jsRound]

/-- Witness for the amended C1 with the square root instantiated by the zero
function. -/
theorem empty_series_neutral_defaults_witness :
    (fun _ : ℚ => (0 : ℚ)) 0 = 0 ∧
    calculateBollingerBands (fun _ : ℚ => (0 : ℚ)) [] 20 2 = ⟨0, 0, 0⟩ :=
  ⟨rfl, (empty_series_neutral_defaults (fun _ => 0) rfl).2.2.2.2.2.2.2.2⟩

/-- A portfolio whose 24h change equals its whole value: one asset worth 100
with a +100% day. -/
def cWipeout : List CryptoAsset :=
  [⟨"1", "AAA", "Asset", 1, 100, 100, 100⟩]

/-- Claim C4 (counterexample): the guard tests totalValue > 0, not
totalValue - totalChange = 0.  With one asset worth 100 carrying a +100%
24h change the denominator is exactly zero, the guard does not fire, and the
division by zero surfaces as an infinite changePercent instead of the claimed
0. -/
theorem changePercent_zero_denominator_not_guarded :
    totalPortfolioValue cWipeout - portfolioChange cWipeout = 0 ∧
    portfolioChangePercent cWipeout = JNum.posInf ∧
    JNum.posInf ≠ JNum.fin 0 := by
  have h0 : totalPortfolioValue cWipeout = 100 := by
    norm_num [cWipeout, totalPortfolioValue]
  have h1 : portfolioChange cWipeout = 100 := by
    norm_num [cWipeout, portfolioChange]
  refine ⟨by rw [h0, h1]; ring, ?_, by simp⟩
  unfold portfolioChangePercent
  rw [if_pos (by rw [h0]; norm_num), h0, h1]
  norm_num [JNum.div, JNum.mul]

/-- Claim C4 (amended): changePercent equals
totalChange / (totalValue - totalChange) * 100 whenever totalValue > 0 and
the denominator is nonzero; it is guarded to 0 exactly when totalValue ≤ 0;
and when totalChange = totalValue > 0 the division by zero is not guarded
and yields positive infinity. -/
theorem changePercent_guard_on_totalValue (assets : List CryptoAsset) :
    (totalPortfolioValue assets ≤ 0 → portfolioChangePercent assets = JNum.fin 0) ∧
    (0 < totalPortfolioValue assets →
      totalPortfolioValue assets - portfolioChange assets ≠ 0 →
      portfolioChangePercent assets =
        JNum.fin (portfolioChange assets /
          (totalPortfolioValue assets - portfolioChange assets) * 100)) ∧
    (0 < totalPortfolioValue assets →
      totalPortfolioValue assets = portfolioChange assets →
      portfolioChangePercent assets = JNum.posInf) := by
  refine ⟨?_, ?_, ?_⟩
  · intro h
    unfold portfolioChangePercent
    rw [if_neg (not_lt.mpr h)]
  · intro h hd
    unfold portfolioChangePercent
    rw [if_pos h]
    simp [JNum.div, JNum.mul, hd]
  · intro h he
    have hd : totalPortfolioValue assets - portfolioChange assets = 0 := by
      rw [he]
      ring
    have hp : 0 < portfolioChange assets := he ▸ h
    unfold portfolioChangePercent
    rw [if_pos h, hd]
    simp [JNum.div, JNum.mul, hp.ne', hp]

/-- Witness for the amended C4 on the example portfolio: value 60000, change
3000, denominator 57000, changePercent 100/19 percent. -/
theorem changePercent_guard_witness :
    0 < totalPortfolioValue cPortfolio ∧
    totalPortfolioValue cPortfolio - portfolioChange cPortfolio ≠ 0 ∧
    portfolioChangePercent cPortfolio =
      JNum.fin (portfolioChange cPortfolio /
        (totalPortfolioValue cPortfolio - portfolioChange cPortfolio) * 100) := by
  have h1 : 0 < totalPortfolioValue cPortfolio := by
    norm_num [cPortfolio, totalPortfolioValue]
  have h2 : totalPortfolioValue cPortfolio - portfolioChange cPortfolio ≠ 0 := by
    norm_num [cPortfolio, totalPortfolioValue, portfolioChange]
  exact ⟨h1, h2, (changePercent_guard_on_totalValue cPortfolio).2.1 h1 h2⟩

/-- Folding any step that adds f of the element sums the mapped list. -/
theorem foldl_step_eq_sum {α : Type} (f : α → ℚ) (step : ℚ → α → ℚ)
    (hstep : ∀ s a, step s a = s + f a) (l : List α) (init : ℚ) :
    l.foldl step init = init + (l.map f).sum := by
  induction l generalizing init with
  | nil => simp
  | cons a t ih =>
      rw [List.foldl_cons, hstep, ih]
      simp [add_assoc]

/-- The live price map of the counterexample: every symbol resolves to price
30000 with a +5% 24h change. -/
def cLive : String → Option LivePrice := fun _ => some ⟨30000, 5⟩

/-- The stored row of the counterexample: 2 BTC bought at 30000. -/
def cDbAssets : List DbAsset :=
  [⟨"BTC", 2, some 30000, some 30000⟩]

/-- Claim C5 (counterexample): the Supabase reconciler computes totalChange
from the purchase price, not from priceChange24h.  For 2 BTC at price 30000
bought at 30000 with a +5% day, the source totalChange is 0 while the
claimed formula gives 3000. -/
theorem supabase_totalChange_not_claimed_formula :
    supabaseTotalChange cLive cDbAssets = 0 ∧
    specTotalChange cLive cDbAssets = 3000 ∧
    (0 : ℚ) ≠ 3000 := by
  refine ⟨?_, ?_, by norm_num⟩
  · norm_num [cLive, cDbAssets, supabaseTotalChange, resolvePrice, jsOr]
  · norm_num [cLive, cDbAssets, specTotalChange, resolvePrice,
      resolveChange24h, jsOr]

/-- Claim C5 (amended): the Dashboard page reconciliation computes
totalChange = Σ (priceChange24h / 100 × value) — on the 2-BTC example this
gives totalChange 3000, totalValue 60000 and changePercent 100/19 ≈ 5.26 —
while the Supabase reconciler computes
totalChange = Σ (currentPrice - purchasePrice) × quantity over assets with a
truthy purchase price. -/
theorem totalChange_formulas :
    (∀ assets : List CryptoAsset,
      portfolioChange assets =
        (assets.map (fun a => a.priceChange24h / 100 * a.totalValue)).sum) ∧
    (∀ (live : String → Option LivePrice) (assets : List DbAsset),
      supabaseTotalChange live assets =
        (assets.map (fun a =>
          match a.purchasePrice with
          | some p =>
              if p = 0 then 0
              else (resolvePrice (live a.symbol.toLower) a - p) * a.quantity
          | none => 0)).sum) ∧
    portfolioChange cPortfolio = 3000 ∧
    totalPortfolioValue cPortfolio = 60000 ∧
    portfolioChangePercent cPortfolio = JNum.fin (100 / 19) ∧
    round2 (100 / 19) = 526 / 100 := by
  refine ⟨?_, ?_, ?_, ?_, ?_, ?_⟩
  · intro assets
    unfold portfolioChange
    rw [foldl_step_eq_sum (fun a : CryptoAsset => a.priceChange24h / 100 * a.totalValue)
      _ (fun s a => rfl) assets 0, zero_add]
  · intro live assets
    unfold supabaseTotalChange
    rw [foldl_step_eq_sum (fun a : DbAsset =>
        match a.purchasePrice with
        | some p =>
            if p = 0 then 0
            else (resolvePrice (live a.symbol.toLower) a - p) * a.quantity
        | none => 0) _ ?_ assets 0, zero_add]
    intro s a
    rcases hpp : a.purchasePrice with _ | p
    · simp [hpp]
    · by_cases hp : p = 0 <;> simp [hpp, hp]
  · norm_num [cPortfolio, portfolioChange]
  · norm_num [cPortfolio, totalPortfolioValue]
  · have h0 : totalPortfolioValue cPortfolio = 60000 := by
      norm_num [cPortfolio, totalPortfolioValue]
    have h1 : portfolioChange cPortfolio = 3000 := by
      norm_num [cPortfolio, portfolioChange]
    unfold portfolioChangePercent
    rw [if_pos (by rw [h0]; norm_num), h0, h1]
    norm_num [JNum.div, JNum.mul]
  · norm_num [round2, jsRound]

/-- Claim C7 (counterexample): the levels are rounded to 4 decimal places,
so with high = 1/20000 and low = 0 the 0% level is 1/10000 ≠ high, and the
23.6% level collapses onto the low instead of lying strictly between. -/
theorem fib_levels_rounding_counterexample :
    (calculateFibonacciRetracement (1/20000) 0).levels.l0 = 1/10000 ∧
    (1/10000 : ℚ) ≠ 1/20000 ∧
    (calculateFibonacciRetracement (1/20000) 0).levels.l236 = 0 := by
  refine ⟨?_, by norm_num, ?_⟩ <;>
    norm_num [calculateFibonacciRetracement, round4, jsRound]

/-- Claim C7 (amended): the 0% and 100% levels are high and low rounded to 4
decimals (hence equal to high and low exactly when those are 4-decimal
values), every intermediate level lies strictly between low and high
whenever high ≥ low + 1/1000, and FibonacciRetracement(100, 50) is exactly
{100, 88.2, 80.9, 75, 69.1, 60.7, 50}. -/
theorem fib_retracement_amended (high low : ℚ) (h : low + 1/1000 ≤ high) :
    (calculateFibonacciRetracement high low).levels.l0 = round4 high ∧
    (calculateFibonacciRetracement high low).levels.l100 = round4 low ∧
    (low < (calculateFibonacciRetracement high low).levels.l236 ∧
      (calculateFibonacciRetracement high low).levels.l236 < high) ∧
    (low < (calculateFibonacciRetracement high low).levels.l382 ∧
      (calculateFibonacciRetracement high low).levels.l382 < high) ∧
    (low < (calculateFibonacciRetracement high low).levels.l50 ∧
      (calculateFibonacciRetracement high low).levels.l50 < high) ∧
    (low < (calculateFibonacciRetracement high low).levels.l618 ∧
      (calculateFibonacciRetracement high low).levels.l618 < high) ∧
    (low < (calculateFibonacciRetracement high low).levels.l786 ∧
      (calculateFibonacciRetracement high low).levels.l786 < high) ∧
    calculateFibonacciRetracement 100 50 =
      ⟨100, 50, ⟨100, 882/10, 809/10, 75, 691/10, 607/10, 50⟩⟩ := by
  refine ⟨rfl, rfl, ⟨?_, ?_⟩, ⟨?_, ?_⟩, ⟨?_, ?_⟩, ⟨?_, ?_⟩, ⟨?_, ?_⟩, ?_⟩
  · exact lt_round4 _ _ (by norm_num; linarith)
  · exact round4_lt _ _ (by norm_num; linarith)
  · exact lt_round4 _ _ (by norm_num; linarith)
  · exact round4_lt _ _ (by norm_num; linarith)
  · exact lt_round4 _ _ (by norm_num; linarith)
  · exact round4_lt _ _ (by norm_num; linarith)
  · exact lt_round4 _ _ (by norm_num; linarith)
  · exact round4_lt _ _ (by norm_num; linarith)
  · exact lt_round4 _ _ (by norm_num; linarith)
  · exact round4_lt _ _ (by norm_num; linarith)
  · norm_num [calculateFibonacciRetracement, round4, jsRound]

/-- Witness for the amended C7 at high = 100, low = 50. -/
theorem fib_retracement_amended_witness :
    (50 : ℚ) + 1/1000 ≤ 100 ∧
    calculateFibonacciRetracement 100 50 =
      ⟨100, 50, ⟨100, 882/10, 809/10, 75, 691/10, 607/10, 50⟩⟩ := by
  have h : (50 : ℚ) + 1/1000 ≤ 100 := by norm_num
  exact ⟨h, (fib_retracement_amended 100 50 h).2.2.2.2.2.2.2⟩

/-- Unfold the absolute value into a conditional for concrete evaluation. -/
theorem qabs_ite (q : ℚ) : |q| = if 0 ≤ q then q else -q := by
  rcases le_or_lt 0 q with h | h
  · rw [abs_of_nonneg h, if_pos h]
  · rw [abs_of_neg h, if_neg (not_le.mpr h)]

/-- A series with three support dips at 10, 10.05 and 10.06 (all within 1%
of each other) separated by flat tops at 20. -/
def cSRPrices : List ℚ :=
  [20, 20, 10, 20, 20, 10.05, 20, 20, 10.06, 20, 20]

/-- Claim C8 (counterexample): the level reported for a group is the
iterated pairwise running average, not the arithmetic mean of the grouped
members.  The three grouped dips 10, 10.05, 10.06 give
((10 + 10.05)/2 + 10.06)/2 = 10.0425 in the source against the mean
30.11/3 ≈ 10.0367 of the claimed averaging. -/
theorem supportResistance_running_average_counterexample :
    (calculateSupportResistance cSRPrices 2).support = [4017/400] ∧
    (calculateSupportResistanceSpec cSRPrices 2).support = [3011/300] ∧
    ([4017/400] : List ℚ) ≠ [3011/300] := by
  have hr7 : List.range 7 = [0, 1, 2, 3, 4, 5, 6] := by decide
  have hmin : localMinima cSRPrices = [10, 201/20, 503/50] := by
    norm_num [localMinima, cSRPrices, hr7, List.filterMap_cons, round4, jsRound]
  refine ⟨?_, ?_, by norm_num⟩
  · have hgroup : ([(10 : ℚ), 201/20, 503/50].foldl insertLevel []) =
        [⟨4017/400, 3⟩] := by
      norm_num [insertLevel, srMatches, qabs_ite]
    rw [show (calculateSupportResistance cSRPrices 2).support
        = groupLevels 2 (localMinima cSRPrices) from rfl, hmin]
    rw [groupLevels, groupLevelGroups, hgroup]
    norm_num [List.insertionSort, List.orderedInsert]
  · have hgroup : ([(10 : ℚ), 201/20, 503/50].foldl insertLevelSpec []) =
        [⟨[10, 201/20, 503/50]⟩] := by
      norm_num [insertLevelSpec, srMatchesSpec, SRGroupSpec.mean, qabs_ite]
    rw [show (calculateSupportResistanceSpec cSRPrices 2).support
        = groupLevelsSpec 2 (localMinima cSRPrices) from rfl, hmin]
    rw [groupLevelsSpec, hgroup]
    norm_num [List.insertionSort, List.orderedInsert, SRGroupSpec.mean]

/-- The grouped output keeps at most 3 groups. -/
theorem groupLevelGroups_length_le (minTouches : ℕ) (levels : List ℚ) :
    (groupLevelGroups minTouches levels).length ≤ 3 := by
  unfold groupLevelGroups
  exact List.length_take_le 3 _

/-- Every retained group has at least minTouches touches. -/
theorem groupLevelGroups_count_ge (minTouches : ℕ) (levels : List ℚ) :
    ∀ g ∈ groupLevelGroups minTouches levels, minTouches ≤ g.count := by
  intro g hg
  unfold groupLevelGroups at hg
  have h1 := List.mem_of_mem_take hg
  have h2 := (List.perm_insertionSort
    (fun a b : SRGroup => b.count ≤ a.count) _).mem_iff.mp h1
  have h3 := (List.mem_filter.mp h2).2
  exact of_decide_eq_true h3

/-- The retained groups are sorted by touch count descending. -/
theorem groupLevelGroups_sorted (minTouches : ℕ) (levels : List ℚ) :
    (groupLevelGroups minTouches levels).Pairwise
      (fun a b : SRGroup => b.count ≤ a.count) := by
  haveI : IsTotal SRGroup (fun a b : SRGroup => b.count ≤ a.count) :=
    ⟨fun a b => le_total b.count a.count⟩
  haveI : IsTrans SRGroup (fun a b : SRGroup => b.count ≤ a.count) :=
    ⟨fun _ _ _ hab hbc => le_trans hbc hab⟩
  unfold groupLevelGroups
  exact List.Pairwise.sublist (List.take_sublist 3 _)
    (List.sorted_insertionSort (fun a b : SRGroup => b.count ≤ a.count) _)

/-- Claim C8 (amended): calculateSupportResistance scans the 2-point
symmetric local extrema, groups sequentially by the 1% test against the
running level of the group (averaging pairwise as each member joins),
retains groups with count ≥ minTouches, sorts them by touch count
descending, and returns at most 3 levels per side. -/
theorem supportResistance_structure (prices : List ℚ) (minTouches : ℕ) :
    (calculateSupportResistance prices minTouches).support.length ≤ 3 ∧
    (calculateSupportResistance prices minTouches).resistance.length ≤ 3 ∧
    (∀ g ∈ groupLevelGroups minTouches (localMinima prices),
      minTouches ≤ g.count) ∧
    (∀ g ∈ groupLevelGroups minTouches (localMaxima prices),
      minTouches ≤ g.count) ∧
    (groupLevelGroups minTouches (localMinima prices)).Pairwise
      (fun a b : SRGroup => b.count ≤ a.count) ∧
    (groupLevelGroups minTouches (localMaxima prices)).Pairwise
      (fun a b : SRGroup => b.count ≤ a.count) ∧
    (calculateSupportResistance prices minTouches).support =
      (groupLevelGroups minTouches (localMinima prices)).map SRGroup.level ∧
    (calculateSupportResistance prices minTouches).resistance =
      (groupLevelGroups minTouches (localMaxima prices)).map SRGroup.level := by
  refine ⟨?_, ?_, groupLevelGroups_count_ge _ _, groupLevelGroups_count_ge _ _,
    groupLevelGroups_sorted _ _, groupLevelGroups_sorted _ _, rfl, rfl⟩
  · rw [show (calculateSupportResistance prices minTouches).support
        = (groupLevelGroups minTouches (localMinima prices)).map SRGroup.level
        from rfl, List.length_map]
    exact groupLevelGroups_length_le _ _
  · rw [show (calculateSupportResistance prices minTouches).resistance
        = (groupLevelGroups minTouches (localMaxima prices)).map SRGroup.level
        from rfl, List.length_map]
    exact groupLevelGroups_length_le _ _
